import Mathlib

/-!
Shallow embedding of the reliable-UDP transport implemented in
`src/network/udp.py` (classes `UDPPacket`, `HeaderPacket`, `DataPacket`,
`FullPacket`, `ACKPacket`, `CheckPortPacket`, `UDPTransmitter`) and of the
server-side routing slot `NetUDPQue._handle_received_data` in
`src/network_1/net_udp_que_server.py`.

Modelling conventions:
* a byte string is a `List Nat` of byte values; `struct.pack` big-endian
  fields are laid out explicitly (`be16`, `be32`);
* Python dicts are insertion-ordered association lists (`dictGet`,
  `dictSet`, `dictDel` mirror `d[k]`, `d[k] = v`, `del d[k]`);
* wall-clock instants returned by `time.time()` are passed in explicitly
  as integers (the code only ever compares differences of instants against
  constant thresholds, so any ordered-group model of the float timestamps
  works; integers keep every state computable);
* socket sends and Qt signal emissions become elements of an output
  `Event` list, in emission order.
-/

/-- Packet kind constant `UDPPacket.HEADER_PACKET`. -/
def HEADER_PACKET : Nat := 0

/-- Packet kind constant `UDPPacket.DATA_PACKET`. -/
def DATA_PACKET : Nat := 1

/-- Packet kind constant `UDPPacket.FULL_PACKET`. -/
def FULL_PACKET : Nat := 2

/-- Packet kind constant `UDPPacket.ACK_PACKET`. -/
def ACK_PACKET : Nat := 3

/-- Packet kind constant `UDPPacket.CHECK_PORT_PACKET`. -/
def CHECK_PORT_PACKET : Nat := 4

/-- ACK status constant `UDPPacket.ACK_NORMAL`. -/
def ACK_NORMAL : Nat := 0

/-- ACK status constant `UDPPacket.ACK_CONFIRM`. -/
def ACK_CONFIRM : Nat := 1

/-- ACK status constant `UDPPacket.ACK_RETRANSMIT`. -/
def ACK_RETRANSMIT : Nat := 2

/-- ACK status constant `UDPPacket.ACK_CHECKPORT`. -/
def ACK_CHECKPORT : Nat := 3

/-- The constant `DataPacket.MAX_DATA_SIZE` / `FullPacket.MAX_DATA_SIZE`. -/
def MAX_DATA_SIZE : Nat := 1400

/-- Big-endian 2-byte encoding of a `u16` field packed by `struct.pack`. -/
def be16 (n : Nat) : List Nat := [n / 256 % 256, n % 256]

/-- Big-endian 4-byte encoding of a `u32` field packed by `struct.pack`. -/
def be32 (n : Nat) : List Nat :=
  [n / 16777216 % 256, n / 65536 % 256, n / 256 % 256, n % 256]

/-- Recomposition of four big-endian bytes, as `struct.unpack` does for `I`. -/
def r32v (a b c d : Nat) : Nat := ((a * 256 + b) * 256 + c) * 256 + d

/-- The lookup `UDPPacket.MODENAME_ID_MAP.get(modename, -1)` used by the
`model_id` property. -/
def model_id (m : String) : Int :=
  if m = "node" then 0
  else if m = "database" then 1
  else if m = "plugin" then 2
  else -1

/-- The lookup `UDPPacket.MODENAME_MAP.get(model_id, f"unknown(...)")` done by
`UDPPacket.parse`. -/
def MODENAME_MAP (i : Nat) : String :=
  if i = 0 then "node"
  else if i = 1 then "database"
  else if i = 2 then "plugin"
  else "unknown(" ++ toString i ++ ")"

/-- One UDP packet object.  The Python code uses a class hierarchy whose
subclasses only differ in which attributes they initialise and in their
`build` / `calculate_checksum` overrides; the attribute set of any instance is
covered by this single record (attributes a given subclass never assigns keep
their `UDPPacket.__init__` defaults). -/
structure UDPPacket where
  packet_type : Nat
  ack_status : Nat
  modename : String
  node_id : Nat
  checksum : Nat
  sequence_num : Nat
  packet_num : Nat
  total_length : Nat
  packet_count : Nat
  data : List Nat
deriving DecidableEq, Repr

/-- The common constructor `UDPPacket.__init__`. -/
def UDPPacket.base (packet_type ack_status : Nat) (modename : String)
    (node_id : Nat) : UDPPacket :=
  { packet_type := packet_type, ack_status := ack_status, modename := modename,
    node_id := node_id, checksum := 0, sequence_num := 0, packet_num := 0,
    total_length := 0, packet_count := 0, data := [] }

/-- Constructor `HeaderPacket.__init__`. -/
def HeaderPacket.init (m : String) (n : Nat) : UDPPacket :=
  UDPPacket.base HEADER_PACKET ACK_NORMAL m n

/-- Constructor `DataPacket.__init__`. -/
def DataPacket.init (m : String) (n : Nat) : UDPPacket :=
  UDPPacket.base DATA_PACKET ACK_NORMAL m n

/-- Constructor `FullPacket.__init__`. -/
def FullPacket.init (m : String) (n : Nat) : UDPPacket :=
  UDPPacket.base FULL_PACKET ACK_NORMAL m n

/-- Constructor `ACKPacket.__init__`; note that it fixes
`ack_status = ACK_CONFIRM`. -/
def ACKPacket.init (m : String) (n : Nat) : UDPPacket :=
  UDPPacket.base ACK_PACKET ACK_CONFIRM m n

/-- Constructor `CheckPortPacket.__init__`. -/
def CheckPortPacket.init (m : String) (n : Nat) : UDPPacket :=
  UDPPacket.base CHECK_PORT_PACKET ACK_NORMAL m n

/-- The 12-byte common header `struct.pack("!BBHII", ...)` shared by every
`build` override. -/
def commonHeader (p : UDPPacket) (mid : Nat) : List Nat :=
  p.packet_type :: p.ack_status :: (be16 p.checksum ++ be32 mid ++ be32 p.node_id)

/-- The `build` method of the packet class determined by `packet_type`
(each subclass sets `packet_type` to its own class constant, so dynamic
dispatch on the class coincides with dispatch on `packet_type`).  Returns `[]`
when the module name is unregistered, as every override does. -/
def build (p : UDPPacket) : List Nat :=
  if model_id p.modename = -1 then [] else
  let mid := (model_id p.modename).toNat
  if p.packet_type = HEADER_PACKET then
    commonHeader p mid ++ be32 p.total_length ++ be32 p.packet_count ++
      be32 p.sequence_num ++ be32 p.packet_num
  else if p.packet_type = DATA_PACKET then
    commonHeader p mid ++ be32 p.sequence_num ++ be32 p.packet_num ++ p.data
  else if p.packet_type = FULL_PACKET then
    commonHeader p mid ++ be32 p.total_length ++ be32 p.packet_count ++
      be32 p.sequence_num ++ be32 p.packet_num ++ p.data
  else if p.packet_type = ACK_PACKET then
    commonHeader p mid ++ be32 p.packet_num ++ be32 p.sequence_num
  else if p.packet_type = CHECK_PORT_PACKET then
    commonHeader p mid ++ be32 p.packet_num ++ be32 p.sequence_num
  else
    commonHeader p mid ++ p.data

/-- The byte string summed by the `calculate_checksum` override of the class
determined by `packet_type` (the checksum field itself is omitted from the
pack format in every override). -/
def checksum_bytes (p : UDPPacket) (mid : Nat) : List Nat :=
  if p.packet_type = HEADER_PACKET then
    p.packet_type :: p.ack_status :: (be32 mid ++ be32 p.node_id ++
      be32 p.total_length ++ be32 p.packet_count ++ be32 p.sequence_num ++
      be32 p.packet_num)
  else if p.packet_type = DATA_PACKET then
    p.packet_type :: p.ack_status :: (be32 mid ++ be32 p.node_id ++
      be32 p.sequence_num ++ be32 p.packet_num) ++ p.data
  else if p.packet_type = FULL_PACKET then
    p.packet_type :: p.ack_status :: (be32 mid ++ be32 p.node_id ++
      be32 p.total_length ++ be32 p.packet_count ++ be32 p.sequence_num ++
      be32 p.packet_num) ++ p.data
  else if p.packet_type = ACK_PACKET then
    p.packet_type :: p.ack_status :: (be32 mid ++ be32 p.node_id ++
      be32 p.packet_num ++ be32 p.sequence_num)
  else if p.packet_type = CHECK_PORT_PACKET then
    p.packet_type :: p.ack_status :: (be32 mid ++ be32 p.node_id ++
      be32 p.packet_num ++ be32 p.sequence_num)
  else
    p.packet_type :: p.ack_status :: (be32 mid ++ be32 p.node_id) ++ p.data

/-- The `calculate_checksum` method: byte sum truncated to 16 bits
(`& 0xFFFF`), or 0 when the module name is unregistered. -/
def calculate_checksum (p : UDPPacket) : Nat :=
  if model_id p.modename = -1 then 0 else
  (checksum_bytes p (model_id p.modename).toNat).sum % 65536

/-- The `verify_checksum` method. -/
def verify_checksum (p : UDPPacket) : Bool :=
  p.checksum == calculate_checksum p

/-- The classmethod `UDPPacket.parse`.  A too-short input makes the common
header check (or the per-kind `struct.unpack`, whose `struct.error` is caught)
fail, returning `None`; an unknown packet kind falls through every branch and
returns `None`.  Note that the decoded `ack_status` byte is never assigned to
the constructed packet. -/
def parse (d : List Nat) : Option UDPPacket :=
  match d with
  | pt :: _ackByte :: c0 :: c1 :: m0 :: m1 :: m2 :: m3 :: n0 :: n1 :: n2 :: n3 :: rest =>
    let ck := c0 * 256 + c1
    let mid := r32v m0 m1 m2 m3
    let mname := MODENAME_MAP mid
    let nid := r32v n0 n1 n2 n3
    if pt = FULL_PACKET then
      match rest with
      | t0 :: t1 :: t2 :: t3 :: k0 :: k1 :: k2 :: k3 ::
          s0 :: s1 :: s2 :: s3 :: q0 :: q1 :: q2 :: q3 :: body =>
        some { FullPacket.init mname nid with
               sequence_num := r32v s0 s1 s2 s3,
               total_length := r32v t0 t1 t2 t3,
               packet_count := r32v k0 k1 k2 k3,
               packet_num := r32v q0 q1 q2 q3,
               checksum := ck,
               data := body }
      | _ => none
    else if pt = HEADER_PACKET then
      match rest with
      | t0 :: t1 :: t2 :: t3 :: k0 :: k1 :: k2 :: k3 ::
          s0 :: s1 :: s2 :: s3 :: q0 :: q1 :: q2 :: q3 :: _body =>
        some { HeaderPacket.init mname nid with
               sequence_num := r32v s0 s1 s2 s3,
               total_length := r32v t0 t1 t2 t3,
               packet_count := r32v k0 k1 k2 k3,
               packet_num := r32v q0 q1 q2 q3,
               checksum := ck }
      | _ => none
    else if pt = DATA_PACKET then
      match rest with
      | s0 :: s1 :: s2 :: s3 :: q0 :: q1 :: q2 :: q3 :: body =>
        some { DataPacket.init mname nid with
               sequence_num := r32v s0 s1 s2 s3,
               packet_num := r32v q0 q1 q2 q3,
               checksum := ck,
               data := body }
      | _ => none
    else if pt = ACK_PACKET then
      match rest with
      | q0 :: q1 :: q2 :: q3 :: s0 :: s1 :: s2 :: s3 :: _body =>
        some { ACKPacket.init mname nid with
               sequence_num := r32v s0 s1 s2 s3,
               packet_num := r32v q0 q1 q2 q3,
               checksum := ck }
      | _ => none
    else if pt = CHECK_PORT_PACKET then
      match rest with
      | q0 :: q1 :: q2 :: q3 :: s0 :: s1 :: s2 :: s3 :: _body =>
        some { CheckPortPacket.init mname nid with
               sequence_num := r32v s0 s1 s2 s3,
               packet_num := r32v q0 q1 q2 q3,
               checksum := ck }
      | _ => none
    else none
  | _ => none

/-- Registered module names: the claim's "registered module name" means a key
of `MODENAME_ID_MAP` (`node`, `database`, `plugin`). -/
def registered (m : String) : Prop :=
  m = "node" ∨ m = "database" ∨ m = "plugin"

/-- Well-formedness of a packet object, in the sense of C2: one of the five
wire kinds, a registered module, every numeric field within its wire-format
range, byte-valued payload, and the attributes a kind does not carry on the
wire (nor parse back) still at their constructor defaults. -/
def wellFormed (p : UDPPacket) : Prop :=
  registered p.modename ∧
  (p.packet_type = HEADER_PACKET ∨ p.packet_type = DATA_PACKET ∨
   p.packet_type = FULL_PACKET ∨ p.packet_type = ACK_PACKET ∨
   p.packet_type = CHECK_PORT_PACKET) ∧
  p.ack_status < 256 ∧ p.checksum < 65536 ∧ p.node_id < 4294967296 ∧
  p.sequence_num < 4294967296 ∧ p.packet_num < 4294967296 ∧
  p.total_length < 4294967296 ∧ p.packet_count < 4294967296 ∧
  (∀ b ∈ p.data, b < 256) ∧
  ((p.packet_type = HEADER_PACKET ∨ p.packet_type = ACK_PACKET ∨
    p.packet_type = CHECK_PORT_PACKET) → p.data = []) ∧
  ((p.packet_type = DATA_PACKET ∨ p.packet_type = ACK_PACKET ∨
    p.packet_type = CHECK_PORT_PACKET) → p.total_length = 0 ∧ p.packet_count = 0)

instance (m : String) : Decidable (registered m) := by
  unfold registered
  infer_instance

instance (p : UDPPacket) : Decidable (wellFormed p) := by
  unfold wellFormed
  infer_instance

/-- A network address `(host, port)`. -/
abbrev Addr : Type := String × Nat

/-- Key of `pending_transmissions`: `(modename, node_id, seq_num, packet_num)`. -/
abbrev SendKey : Type := String × Nat × Nat × Nat

/-- Key of `pending_receptions`: `(source_addr, modename, node_id, seq_num)`. -/
abbrev RecvKey : Type := Addr × String × Nat × Nat

/-- Python dict lookup `d.get(k)` over an insertion-ordered association
list. -/
def dictGet {α β : Type} [DecidableEq α] : List (α × β) → α → Option β
  | [], _ => none
  | (k, v) :: rest, k1 => if k = k1 then some v else dictGet rest k1

/-- Python dict assignment `d[k] = v`: replaces in place, or appends a new
key (matching CPython's insertion-order semantics). -/
def dictSet {α β : Type} [DecidableEq α] : List (α × β) → α → β → List (α × β)
  | [], k1, v1 => [(k1, v1)]
  | (k, v) :: rest, k1, v1 =>
      if k = k1 then (k1, v1) :: rest else (k, v) :: dictSet rest k1 v1

/-- Python dict deletion `del d[k]` (keys are unique, so removing every
occurrence coincides with removing the one entry). -/
def dictDel {α β : Type} [DecidableEq α] : List (α × β) → α → List (α × β)
  | [], _ => []
  | (k, v) :: rest, k1 =>
      if k = k1 then dictDel rest k1 else (k, v) :: dictDel rest k1

/-- Observable outputs of the transmitter, in emission order: socket sends
(`sock.sendto`) and the four Qt signals of `UDPTransmitter`. -/
inductive Event where
  | sent (datagram : List Nat) (dest : Addr)
  | transmission_complete (modename : String) (node_id : Nat) (data : List Nat)
      (source_addr : Addr)
  | transmission_failed (modename : String) (node_id : Nat) (error : String)
      (dest : Addr)
  | ack_received (modename : String) (node_id : Nat) (sequence_num : Nat)
      (source_addr : Addr)
  | port_status_changed (addr : Addr) (online : Bool)
deriving DecidableEq, Repr

/-- One `pending_transmissions` entry, as filled by
`_queue_for_transmission`.  Times from `time.time()` are modelled as
integers. -/
structure Transmission where
  packet : UDPPacket
  data : List Nat
  dest_addr : Addr
  retry_count : Nat
  last_sent : Int
  sent : Bool
deriving DecidableEq, Repr

/-- One `pending_receptions` entry. -/
structure Reception where
  source_addr : Addr
  total_length : Nat
  packet_count : Nat
  received_packets : List (Nat × List Nat)
  last_received : Int
  header_received : Bool
deriving DecidableEq, Repr

/-- One `port_check_targets` entry. -/
structure PortStatus where
  online : Bool
  retry_count : Nat
deriving DecidableEq, Repr

/-- The mutable state of a `UDPTransmitter` relevant to packet handling
(the sequence counter belongs to the send pipeline and is passed explicitly
to `sendDataPackets`). -/
structure TransState where
  pending_transmissions : List (SendKey × Transmission)
  pending_receptions : List (RecvKey × Reception)
  port_check_targets : List (Addr × PortStatus)
deriving DecidableEq, Repr

/-- The CONFIRM ACK packet constructed by `UDPTransmitter._send_ack`. -/
def sendAckPacket (modename : String) (node_id seq_num packet_num : Nat) :
    UDPPacket :=
  let ack := { ACKPacket.init modename node_id with
               packet_num := packet_num
               sequence_num := seq_num
               ack_status := ACK_CONFIRM }
  { ack with checksum := calculate_checksum ack }

/-- The method `UDPTransmitter._update_port_status`: overwrites the cached
entry and emits `port_status_changed` unconditionally. -/
def updatePortStatus (targets : List (Addr × PortStatus)) (addr : Addr)
    (online : Bool) : List (Addr × PortStatus) × List Event :=
  let current := (dictGet targets addr).getD { online := false, retry_count := 0 }
  let updated : PortStatus :=
    if online then { online := true, retry_count := 0 }
    else { current with online := false }
  (dictSet targets addr updated, [Event.port_status_changed addr updated.online])

/-- Insertion into a key-sorted association list (used to model Python's
`sorted(d.items())`, whose keys are unique). -/
def insertByKey (x : Nat × List Nat) :
    List (Nat × List Nat) → List (Nat × List Nat)
  | [] => [x]
  | y :: ys => if x.1 ≤ y.1 then x :: y :: ys else y :: insertByKey x ys

/-- Sorting of `received_packets.items()` by packet number. -/
def sortByKey : List (Nat × List Nat) → List (Nat × List Nat)
  | [] => []
  | x :: xs => insertByKey x (sortByKey xs)

/-- The reassembled byte string `b''.join(...)` of
`UDPTransmitter._assemble_data`. -/
def sortedJoin (fragments : List (Nat × List Nat)) : List Nat :=
  ((sortByKey fragments).map Prod.snd).flatten

/-- The method `UDPTransmitter._assemble_data`: on a length mismatch it logs
and returns (mutating nothing, emitting nothing); otherwise it emits
`transmission_complete` and deletes the reception entry. -/
def assembleData (receptions : List (RecvKey × Reception)) (recv_key : RecvKey)
    (reception : Reception) : List (RecvKey × Reception) × List Event :=
  let data := sortedJoin reception.received_packets
  if data.length ≠ reception.total_length then (receptions, [])
  else
    (dictDel receptions recv_key,
     [Event.transmission_complete recv_key.2.1 recv_key.2.2.1 data
        reception.source_addr])

/-- The method `UDPTransmitter._handle_check_port_packet`: replies with an
ACK of status `ACK_CHECKPORT` and touches no state. -/
def handleCheckPortPacket (st : TransState) (p : UDPPacket) (addr : Addr) :
    TransState × List Event :=
  let ack := { ACKPacket.init p.modename p.node_id with
               sequence_num := p.sequence_num
               packet_num := p.packet_num
               ack_status := ACK_CHECKPORT }
  let ack1 := { ack with checksum := calculate_checksum ack }
  (st, [Event.sent (build ack1) addr])

/-- The method `UDPTransmitter._handle_ack_packet`. -/
def handleAckPacket (st : TransState) (p : UDPPacket) (addr : Addr) :
    TransState × List Event :=
  let key : SendKey := (p.modename, p.node_id, p.sequence_num, p.packet_num)
  match dictGet st.pending_transmissions key with
  | some t =>
    if p.ack_status = ACK_CONFIRM then
      ({ st with pending_transmissions := dictDel st.pending_transmissions key },
       [Event.ack_received p.modename p.node_id p.sequence_num addr])
    else if p.ack_status = ACK_RETRANSMIT then
      let t1 := { t with
        retry_count := t.retry_count + 1
        last_sent := 0 }
      ({ st with pending_transmissions := dictSet st.pending_transmissions key t1 },
       [])
    else if p.ack_status = ACK_CHECKPORT then
      let tg := updatePortStatus st.port_check_targets addr true
      ({ st with
          port_check_targets := tg.1
          pending_transmissions := dictDel st.pending_transmissions key },
       tg.2)
    else (st, [])
  | none => (st, [])

/-- The method `UDPTransmitter._handle_header_packet`.  The CONFIRM ACK is
sent before the lock is taken; `now` stands for the `time.time()` calls. -/
def handleHeaderPacket (st : TransState) (now : Int) (p : UDPPacket)
    (addr : Addr) : TransState × List Event :=
  let recv_key : RecvKey := (addr, p.modename, p.node_id, p.sequence_num)
  let ackEv := Event.sent
    (build (sendAckPacket p.modename p.node_id p.sequence_num p.packet_num)) addr
  match dictGet st.pending_receptions recv_key with
  | some reception =>
    let reception1 := { reception with
      total_length := p.total_length
      packet_count := p.packet_count
      header_received := true
      last_received := now }
    let st1 := { st with pending_receptions := dictSet st.pending_receptions recv_key reception1 }
    if reception1.received_packets.length = reception1.packet_count then
      let a := assembleData st1.pending_receptions recv_key reception1
      ({ st1 with pending_receptions := a.1 }, ackEv :: a.2)
    else (st1, [ackEv])
  | none =>
    let newRec : Reception := {
      source_addr := addr
      total_length := p.total_length
      packet_count := p.packet_count
      received_packets := []
      last_received := now
      header_received := true }
    ({ st with pending_receptions := dictSet st.pending_receptions recv_key newRec },
     [ackEv])

/-- The method `UDPTransmitter._handle_data_packet`. -/
def handleDataPacket (st : TransState) (now : Int) (p : UDPPacket)
    (addr : Addr) : TransState × List Event :=
  let recv_key : RecvKey := (addr, p.modename, p.node_id, p.sequence_num)
  let ackEv := Event.sent
    (build (sendAckPacket p.modename p.node_id p.sequence_num p.packet_num)) addr
  match dictGet st.pending_receptions recv_key with
  | none =>
    let newRec : Reception := {
      source_addr := addr
      total_length := 0
      packet_count := 0
      received_packets := [(p.packet_num, p.data)]
      last_received := now
      header_received := false }
    ({ st with pending_receptions := dictSet st.pending_receptions recv_key newRec },
     [ackEv])
  | some reception =>
    let reception1 := { reception with
      received_packets := dictSet reception.received_packets p.packet_num p.data
      last_received := now }
    let st1 := { st with pending_receptions := dictSet st.pending_receptions recv_key reception1 }
    if reception1.header_received = true ∧
        reception1.received_packets.length = reception1.packet_count then
      let a := assembleData st1.pending_receptions recv_key reception1
      ({ st1 with pending_receptions := a.1 }, ackEv :: a.2)
    else (st1, [ackEv])

/-- The method `UDPTransmitter._handle_full_packet`: ACK, then immediate
delivery. -/
def handleFullPacket (st : TransState) (p : UDPPacket) (addr : Addr) :
    TransState × List Event :=
  (st,
   [Event.sent
      (build (sendAckPacket p.modename p.node_id p.sequence_num p.packet_num))
      addr,
    Event.transmission_complete p.modename p.node_id p.data addr])

/-- One iteration of `UDPTransmitter._recv_loop` on a received datagram:
parse, drop invalid input, dispatch by packet kind.  No checksum check
appears anywhere on this path. -/
def recvStep (st : TransState) (now : Int) (datagram : List Nat) (addr : Addr) :
    TransState × List Event :=
  match parse datagram with
  | none => (st, [])
  | some p =>
    if p.packet_type = ACK_PACKET then handleAckPacket st p addr
    else if p.packet_type = HEADER_PACKET then handleHeaderPacket st now p addr
    else if p.packet_type = DATA_PACKET then handleDataPacket st now p addr
    else if p.packet_type = FULL_PACKET then handleFullPacket st p addr
    else if p.packet_type = CHECK_PORT_PACKET then handleCheckPortPacket st p addr
    else (st, [])

/-- The method `UDPTransmitter._queue_for_transmission`. -/
def queueForTransmission (pend : List (SendKey × Transmission)) (key : SendKey)
    (packet : UDPPacket) (data : List Nat) (dest_addr : Addr) :
    List (SendKey × Transmission) :=
  dictSet pend key
    { packet := packet
      data := data
      dest_addr := dest_addr
      retry_count := 0
      last_sent := 0
      sent := false }

/-- The successive slices `data[i:i+MAX_DATA_SIZE]` taken by the loop
`for i in range(0, len(data), DataPacket.MAX_DATA_SIZE)`. -/
def chunks (l : List Nat) : List (List Nat) :=
  if l = [] then []
  else l.take MAX_DATA_SIZE :: chunks (l.drop MAX_DATA_SIZE)
termination_by l.length
decreasing_by
  rename_i h
  have hl : 0 < l.length := List.length_pos.mpr h
  simp only [List.length_drop, MAX_DATA_SIZE]
  omega

/-- The body of the fragment loop in `_send_data`, for the chunk at 0-based
position `ic.1` (wire `packet_num = ic.1 + 1`).  Note the source computes
the fragment's checksum before assigning its `packet_num`, so the checksum
is taken with `packet_num = 0`. -/
def dataFragment (modename : String) (node_id sequence_num : Nat)
    (ic : Nat × List Nat) : SendKey × UDPPacket :=
  let base := { DataPacket.init modename node_id with
    sequence_num := sequence_num
    data := ic.2 }
  let withCk := { base with checksum := calculate_checksum base }
  ((modename, node_id, sequence_num, ic.1 + 1),
   { withCk with packet_num := ic.1 + 1 })

/-- The packet-construction part of `UDPTransmitter._send_data`: the
`(key, packet)` pairs passed to `_queue_for_transmission`, in order.
`sequence_num` is the freshly allocated sequence number. -/
def sendDataPackets (data : List Nat) (modename : String)
    (node_id sequence_num : Nat) : List (SendKey × UDPPacket) :=
  if data.length ≤ MAX_DATA_SIZE then
    let packet0 := { FullPacket.init modename node_id with
      sequence_num := sequence_num
      data := data
      total_length := data.length
      packet_count := 1
      packet_num := 0 }
    let packet1 := { packet0 with checksum := calculate_checksum packet0 }
    [((modename, node_id, sequence_num, 0), packet1)]
  else
    let header0 := { HeaderPacket.init modename node_id with
      sequence_num := sequence_num
      packet_num := 0
      total_length := data.length
      packet_count := (data.length + MAX_DATA_SIZE - 1) / MAX_DATA_SIZE }
    let header1 := { header0 with checksum := calculate_checksum header0 }
    ((modename, node_id, sequence_num, 0), header1) ::
      (chunks data).enum.map (dataFragment modename node_id sequence_num)

/-- Phase one of `UDPTransmitter._check_retransmissions` (the loop under the
lock): walks the pending table in insertion order, marks first sends,
collects keys to (re)send, and on retry exhaustion feeds the liveness cache
(for CHECK_PORT packets), emits `transmission_failed` and deletes the
entry.  Returns the updated table, updated port targets, emitted events and
the collected keys. -/
def retransScan (now : Int) (targets : List (Addr × PortStatus)) :
    List (SendKey × Transmission) →
    List (SendKey × Transmission) × List (Addr × PortStatus) × List Event ×
      List SendKey
  | [] => ([], targets, [], [])
  | (key, t) :: rest =>
    if t.sent = false then
      let t1 := { t with
        sent := true
        last_sent := now }
      let r := retransScan now targets rest
      ((key, t1) :: r.1, r.2.1, r.2.2.1, key :: r.2.2.2)
    else if 1 < now - t.last_sent then
      if t.retry_count < 3 then
        let r := retransScan now targets rest
        ((key, t) :: r.1, r.2.1, r.2.2.1, key :: r.2.2.2)
      else
        let u :=
          if t.packet.packet_type = CHECK_PORT_PACKET then
            updatePortStatus targets t.dest_addr false
          else (targets, [])
        let failEv := Event.transmission_failed key.1 key.2.1
          "Max retries exceeded" t.dest_addr
        let r := retransScan now u.1 rest
        (r.1, r.2.1, u.2 ++ failEv :: r.2.2.1, r.2.2.2)
    else
      let r := retransScan now targets rest
      ((key, t) :: r.1, r.2.1, r.2.2.1, r.2.2.2)

/-- Phase two of `UDPTransmitter._check_retransmissions` (outside the lock):
sends each collected key's packet and updates `last_sent` / `retry_count`.
All sends of one pass share the `time.time()` instant `now2`; socket errors
are assumed absent.  A collected key always resolves (phase one never
deletes a collected key), so the `none` arm is unreachable. -/
def retransSend (now2 : Int) (pend : List (SendKey × Transmission)) :
    List SendKey → List (SendKey × Transmission) × List Event
  | [] => (pend, [])
  | key :: keys =>
    match dictGet pend key with
    | some t =>
      let t1 := { t with
        last_sent := now2
        retry_count := t.retry_count + 1 }
      let r := retransSend now2 (dictSet pend key t1) keys
      (r.1, Event.sent (build t.packet) t.dest_addr :: r.2)
    | none => retransSend now2 pend keys

/-- One call of `UDPTransmitter._check_retransmissions` (executed on every
iteration of `_send_loop`); `now` is the `time.time()` of phase one, `now2`
that of phase two. -/
def checkRetransmissions (st : TransState) (now now2 : Int) :
    TransState × List Event :=
  let s := retransScan now st.port_check_targets st.pending_transmissions
  let r := retransSend now2 s.1 s.2.2.2
  ({ st with
     pending_transmissions := r.1
     port_check_targets := s.2.1 }, s.2.2.1 ++ r.2)

/-- Repeated `_check_retransmissions` passes (as `_send_loop` performs when
the send queue stays empty and no datagram arrives), at the given sequence
of phase-one/phase-two instants. -/
def runRetransTicks (st : TransState) :
    List (Int × Int) → TransState × List Event
  | [] => (st, [])
  | tick :: ticks =>
    let c := checkRetransmissions st tick.1 tick.2
    let r := runRetransTicks c.1 ticks
    (r.1, c.2 ++ r.2)

/-- Whether an event is a datagram send (`sock.sendto`). -/
def isSentEvent : Event → Bool
  | Event.sent _ _ => true
  | _ => false

/-- Whether an event is a `transmission_failed` emission. -/
def isFailureEvent : Event → Bool
  | Event.transmission_failed _ _ _ _ => true
  | _ => false

/-- Number of datagrams put on the wire (`sock.sendto` calls) in an event
trace. -/
def countSends (evs : List Event) : Nat := (evs.filter isSentEvent).length

/-- Number of `transmission_failed` emissions in an event trace. -/
def countFailures (evs : List Event) : Nat := (evs.filter isFailureEvent).length

/-- One `pending_transmissions` value with every field explicit (used to
trace the life of a single entry through retransmission passes). -/
def c5Entry (packet : UDPPacket) (data : List Nat) (dest : Addr) (r : Nat)
    (ls : Int) (sentFlag : Bool) : Transmission :=
  { packet := packet
    data := data
    dest_addr := dest
    retry_count := r
    last_sent := ls
    sent := sentFlag }

/-- The transmitter state right after `_queue_for_transmission` registered a
single PendingSend into an empty pending table. -/
def c5Start (key : SendKey) (packet : UDPPacket) (data : List Nat)
    (dest : Addr) (rcp : List (RecvKey × Reception))
    (tg : List (Addr × PortStatus)) : TransState :=
  { pending_transmissions := queueForTransmission [] key packet data dest
    pending_receptions := rcp
    port_check_targets := tg }

/-- A sequence of liveness observations fed to `_update_port_status`
(`true` for a received port-check ACK, `false` for retry exhaustion of a
port-check packet). -/
def runPortObservations (targets : List (Addr × PortStatus)) :
    List (Addr × Bool) → List (Addr × PortStatus) × List Event
  | [] => (targets, [])
  | ob :: obs =>
    let u := updatePortStatus targets ob.1 ob.2
    let r := runPortObservations u.1 obs
    (r.1, u.2 ++ r.2)

/-- The upsert `self.node_id_to_addr[node_id] = source_addr` performed by
`NetUDPQue._handle_received_data` for each delivery event (other events do
not reach that slot). -/
def upsertBinding (binding : List (Nat × Addr)) (e : Event) :
    List (Nat × Addr) :=
  match e with
  | Event.transmission_complete _ node_id _ src => dictSet binding node_id src
  | _ => binding

/-- Source address of the last delivery event for `node_id` in a trace, if
any. -/
def lastDeliverySrc (node_id : Nat) : List Event → Option Addr
  | [] => none
  | e :: evs =>
    match lastDeliverySrc node_id evs with
    | some a => some a
    | none =>
      match e with
      | Event.transmission_complete _ n2 _ src =>
        if n2 = node_id then some src else none
      | _ => none

/-- Modelled from the spec: `net_udp_que_server.py` wires
`NetUDPQue._handle_received_data` to the `dataReceived` signal of the
`UDPNetworkManager` imported from `network_1/udp.py`, a module that is not
in the source tree.  Per the spec (receive routing, §4.4), `dataReceived`
forwards each `DeliveryComplete` of the transport engine; the engine itself
is embedded here from `src/network/udp.py` (`recvStep`), whose
`transmission_complete` emissions are the `DeliveryComplete` events.  This
step therefore runs one receive iteration and applies the (in-source)
upsert `node_id_to_addr[node_id] = source_addr` for each delivery event. -/
def serverStep (binding : List (Nat × Addr)) (st : TransState) (now : Int)
    (d : List Nat) (addr : Addr) :
    List (Nat × Addr) × TransState × List Event :=
  let r := recvStep st now d addr
  (r.2.foldl upsertBinding binding, r.1, r.2)

/-- A transmitter state with all three tables empty, as right after
`UDPTransmitter.__init__`. -/
def emptyState : TransState :=
  { pending_transmissions := []
    pending_receptions := []
    port_check_targets := [] }

/-- A concrete well-formed FULL packet with a correct checksum. -/
def exFullPacket : UDPPacket :=
  let p0 := { FullPacket.init "node" 7 with
    sequence_num := 9
    total_length := 2
    packet_count := 1
    packet_num := 0
    data := [10, 20] }
  { p0 with checksum := calculate_checksum p0 }

/-- The same FULL packet with a corrupted checksum field (the correct sum is
51, the carried field says 1). -/
def corruptedFull : UDPPacket :=
  { exFullPacket with checksum := 1 }

/-- The probe-reply ACK exactly as `_handle_check_port_packet` builds it:
an `ACKPacket` whose `ack_status` is overwritten with `ACK_CHECKPORT`
before the checksum is taken. -/
def probeReplyAck : UDPPacket :=
  let a0 := { ACKPacket.init "node" 5 with
    sequence_num := 4
    packet_num := 9
    ack_status := ACK_CHECKPORT }
  { a0 with checksum := calculate_checksum a0 }

/-- A concrete valid HEADER packet from node 7 (correct checksum),
announcing a 3000-byte message in 3 fragments. -/
def c9HeaderPacket : UDPPacket :=
  let h0 := { HeaderPacket.init "node" 7 with
    sequence_num := 21
    packet_num := 0
    total_length := 3000
    packet_count := 3 }
  { h0 with checksum := calculate_checksum h0 }

/-- A concrete valid FULL packet from node 7 carrying `[1, 2]`. -/
def c9FullPacket : UDPPacket :=
  let p0 := { FullPacket.init "node" 7 with
    sequence_num := 22
    total_length := 2
    packet_count := 1
    packet_num := 0
    data := [1, 2] }
  { p0 with checksum := calculate_checksum p0 }

/-- A concrete DATA fragment (a duplicate arriving when no reception state
exists creates a fresh header-less PendingReceive). -/
def dupDataPacket : UDPPacket :=
  let d0 := { DataPacket.init "node" 3 with
    sequence_num := 11
    packet_num := 1
    data := [42] }
  { d0 with checksum := calculate_checksum d0 }

/-- A reception buffer that is one fragment short of completion but whose
announced total length (5000) cannot match the bytes on hand. -/
def c6Reception : Reception :=
  { source_addr := ("10.0.0.9", 7000)
    total_length := 5000
    packet_count := 2
    received_packets := [(1, [1, 2, 3])]
    last_received := 0
    header_received := true }

/-- The concrete DATA fragment that completes `c6Reception`. -/
def c6DataPacket : UDPPacket :=
  let d0 := { DataPacket.init "node" 6 with
    sequence_num := 13
    packet_num := 2
    data := [4, 5, 6, 7] }
  { d0 with checksum := calculate_checksum d0 }

/-- The transmitter state holding `c6Reception` under the key matching
`c6DataPacket` sent from `("10.0.0.9", 7000)`. -/
def c6State : TransState :=
  { pending_transmissions := []
    pending_receptions := [((("10.0.0.9", 7000), "node", 6, 13), c6Reception)]
    port_check_targets := [] }

/-- The ACK-handling key `(packet.modename, packet.node_id,
packet.sequence_num, packet.packet_num)` computed by `_handle_ack_packet`. -/
def ackKey (p : UDPPacket) : SendKey :=
  (p.modename, p.node_id, p.sequence_num, p.packet_num)

/-- A transmitter state holding one pending transmission for `exFullPacket`
under key `("node", 7, 9, 0)`. -/
def c8State : TransState :=
  { pending_transmissions := queueForTransmission [] ("node", 7, 9, 0) exFullPacket [10, 20] ("10.0.0.1", 5000)
    pending_receptions := []
    port_check_targets := [] }

/-- The pending entry stored in `c8State`. -/
def c8Entry : Transmission :=
  { packet := exFullPacket
    data := [10, 20]
    dest_addr := ("10.0.0.1", 5000)
    retry_count := 0
    last_sent := 0
    sent := false }

/-- The reception-table key of the ghost entry created by `dupDataPacket`
arriving from `("9.9.9.9", 1)`. -/
def c7GhostKey : RecvKey := (("9.9.9.9", 1), "node", 3, 11)

/-- The header-less ghost PendingReceive that `_handle_data_packet` creates
for a duplicate DATA fragment arriving at time 0 when no reception state
exists (for instance after its message already completed and was removed). -/
def c7Ghost : Reception :=
  { source_addr := ("9.9.9.9", 1)
    total_length := 0
    packet_count := 0
    received_packets := [(1, [42])]
    last_received := 0
    header_received := false }

/-- A reception one fragment away from a successful assembly of 1 byte. -/
def c7DoneReception : Reception :=
  { source_addr := ("9.9.9.9", 1)
    total_length := 1
    packet_count := 1
    received_packets := []
    last_received := 0
    header_received := true }

/-- A transmitter state holding `c7DoneReception` under `c7GhostKey`. -/
def c7DoneState : TransState :=
  { pending_transmissions := []
    pending_receptions := [(c7GhostKey, c7DoneReception)]
    port_check_targets := [] }

/-- The DATA fragment that completes `c7DoneReception`. -/
def c7FinalData : UDPPacket :=
  let d0 := { DataPacket.init "node" 3 with
    sequence_num := 11
    packet_num := 1
    data := [9] }
  { d0 with checksum := calculate_checksum d0 }

/-! Helper lemmas. -/

theorem r32v_be32 (n : Nat) (h : n < 4294967296) :
    r32v (n / 16777216 % 256) (n / 65536 % 256) (n / 256 % 256) (n % 256) = n := by
  unfold r32v
  omega

theorem dictGet_dictSet_same {α β : Type} [DecidableEq α]
    (d : List (α × β)) (k : α) (v : β) : dictGet (dictSet d k v) k = some v := by
  induction d with
  | nil => simp [dictGet, dictSet]
  | cons kv rest ih =>
    obtain ⟨k1, v1⟩ := kv
    by_cases h : k1 = k <;> simp [dictGet, dictSet, h, ih]

theorem dictGet_dictSet_ne {α β : Type} [DecidableEq α]
    (d : List (α × β)) (k k2 : α) (v : β) (h : k2 ≠ k) :
    dictGet (dictSet d k v) k2 = dictGet d k2 := by
  have h0 : ¬ k = k2 := fun h1 => h h1.symm
  induction d with
  | nil => simp [dictGet, dictSet, h0]
  | cons kv rest ih =>
    obtain ⟨k1, v1⟩ := kv
    by_cases h1 : k1 = k <;> by_cases h2 : k1 = k2 <;>
      simp_all [dictGet, dictSet]

theorem dictGet_dictDel_same {α β : Type} [DecidableEq α]
    (d : List (α × β)) (k : α) : dictGet (dictDel d k) k = none := by
  induction d with
  | nil => simp [dictGet, dictDel]
  | cons kv rest ih =>
    obtain ⟨k1, v1⟩ := kv
    by_cases h : k1 = k <;> simp [dictGet, dictDel, h, ih]

theorem dictGet_dictDel_ne {α β : Type} [DecidableEq α]
    (d : List (α × β)) (k k2 : α) (h : k2 ≠ k) :
    dictGet (dictDel d k) k2 = dictGet d k2 := by
  induction d with
  | nil => simp [dictGet, dictDel]
  | cons kv rest ih =>
    obtain ⟨k1, v1⟩ := kv
    by_cases h1 : k1 = k <;> by_cases h2 : k1 = k2 <;>
      simp_all [dictGet, dictDel]

/-! C2 — build/parse round trip. -/

/-- C2, counterexample.  The probe-reply ACK that
`_handle_check_port_packet` itself sends is well formed (ACK kind,
registered module, in-range fields), yet parsing its built bytes yields a
packet whose `ack_status` is `ACK_CONFIRM`, not the carried
`ACK_CHECKPORT`: the claimed field-for-field round trip fails on
`ack_status`. -/
theorem c2_roundtrip_counterexample :
    wellFormed probeReplyAck ∧
    parse (build probeReplyAck) =
      some { probeReplyAck with ack_status := ACK_CONFIRM } ∧
    probeReplyAck.ack_status ≠ ACK_CONFIRM := by decide

/-- C2, amended: for every well-formed packet of any of the five kinds over
a registered module name whose `ack_status` equals its constructor default
(`ACK_CONFIRM` for ACK packets, `ACK_NORMAL` otherwise), parsing the built
bytes returns a packet equal to it in every field.  (The amendment is
forced because `parse` never assigns the decoded `ack_status`.) -/
theorem c2_parse_build_roundtrip (p : UDPPacket) (h : wellFormed p)
    (hack : p.ack_status =
      (if p.packet_type = ACK_PACKET then ACK_CONFIRM else ACK_NORMAL)) :
    parse (build p) = some p := by
  obtain ⟨pt, ack, m, nid, ck, seq, pn, tl, pc, body⟩ := p
  obtain ⟨hm, hk, hackr, hck, hnid, hseq, hpn, htl, hpc, hbytes, hdat, hz⟩ := h
  simp only [registered] at hm
  simp only at hack hk hdat hz ⊢
  rcases hk with rfl|rfl|rfl|rfl|rfl <;> rcases hm with rfl|rfl|rfl <;>
    simp_all [build, parse, commonHeader, be16, be32, HEADER_PACKET, DATA_PACKET,
      FULL_PACKET, ACK_PACKET, CHECK_PORT_PACKET, ACK_NORMAL, ACK_CONFIRM,
      model_id, MODENAME_MAP, r32v, FullPacket.init, HeaderPacket.init,
      DataPacket.init, ACKPacket.init, CheckPortPacket.init, UDPPacket.base] <;>
    omega

/-- C2, witness: the round trip at the concrete FULL packet `exFullPacket`. -/
theorem c2_parse_build_roundtrip_witness :
    parse (build exFullPacket) = some exFullPacket :=
  c2_parse_build_roundtrip exFullPacket (by decide) (by decide)

/-! C10 — parse pins the ack status of ACK packets. -/

/-- C10: every byte string accepted by `parse` as an ACK packet comes back
with `ack_status = ACK_CONFIRM` (the `ACKPacket` constructor default, which
`parse` never overwrites), so it can satisfy neither the `ACK_RETRANSMIT`
nor the `ACK_CHECKPORT` test of `_handle_ack_packet`. -/
theorem c10_parse_ack_status (d : List Nat) (p : UDPPacket)
    (hp : parse d = some p) (hty : p.packet_type = ACK_PACKET) :
    p.ack_status = ACK_CONFIRM ∧ p.ack_status ≠ ACK_RETRANSMIT ∧
    p.ack_status ≠ ACK_CHECKPORT := by
  unfold parse at hp
  repeat' split at hp
  all_goals simp only [Option.some.injEq, reduceCtorEq] at hp
  all_goals subst hp
  all_goals simp_all [ACKPacket.init, FullPacket.init, HeaderPacket.init,
    DataPacket.init, CheckPortPacket.init, UDPPacket.base, HEADER_PACKET,
    DATA_PACKET, FULL_PACKET, ACK_PACKET, CHECK_PORT_PACKET, ACK_NORMAL,
    ACK_CONFIRM, ACK_RETRANSMIT, ACK_CHECKPORT]

/-- C10, witness: the wire image of `probeReplyAck` (status byte 3 on the
wire) parses to a packet whose status is nevertheless `ACK_CONFIRM`. -/
theorem c10_parse_ack_status_witness :
    ({ probeReplyAck with ack_status := ACK_CONFIRM } : UDPPacket).ack_status
        = ACK_CONFIRM ∧
    ({ probeReplyAck with ack_status := ACK_CONFIRM } : UDPPacket).ack_status
        ≠ ACK_RETRANSMIT ∧
    ({ probeReplyAck with ack_status := ACK_CONFIRM } : UDPPacket).ack_status
        ≠ ACK_CHECKPORT :=
  c10_parse_ack_status (build probeReplyAck)
    { probeReplyAck with ack_status := ACK_CONFIRM } (by decide) (by decide)

/-! C1 — checksum handling on receive. -/

/-- C1, counterexample.  A FULL packet whose carried checksum (1) differs
from the computed checksum (51) is not discarded: `_recv_loop` parses it
and processes it exactly like a valid one, sending a CONFIRM ACK and
delivering the payload. -/
theorem c1_checksum_counterexample :
    verify_checksum corruptedFull = false ∧
    parse (build corruptedFull) = some corruptedFull ∧
    (recvStep emptyState 0 (build corruptedFull) ("10.0.0.1", 5000)).2 =
      [Event.sent (build (sendAckPacket "node" 7 9 0)) ("10.0.0.1", 5000),
       Event.transmission_complete "node" 7 [10, 20] ("10.0.0.1", 5000)] := by
  decide

/-- C1, amended: the receive loop never verifies checksums.  Any datagram
that parses to a FULL packet — whether or not `verify_checksum` holds — is
acknowledged and its payload delivered; the checksum-mismatch hypothesis
changes nothing. -/
theorem c1_no_checksum_verification (st : TransState) (now : Int)
    (d : List Nat) (addr : Addr) (p : UDPPacket) (hp : parse d = some p)
    (_hbad : verify_checksum p = false) (hty : p.packet_type = FULL_PACKET) :
    (recvStep st now d addr).2 =
      [Event.sent
        (build (sendAckPacket p.modename p.node_id p.sequence_num p.packet_num))
        addr,
       Event.transmission_complete p.modename p.node_id p.data addr] := by
  unfold recvStep
  rw [hp]
  simp [hty, handleFullPacket, FULL_PACKET, ACK_PACKET, HEADER_PACKET,
    DATA_PACKET]

/-- C1, witness: the amended theorem applied to the corrupted FULL packet. -/
theorem c1_no_checksum_verification_witness :
    (recvStep emptyState 0 (build corruptedFull) ("10.0.0.1", 5000)).2 =
      [Event.sent
        (build (sendAckPacket corruptedFull.modename corruptedFull.node_id
          corruptedFull.sequence_num corruptedFull.packet_num)) ("10.0.0.1", 5000),
       Event.transmission_complete corruptedFull.modename corruptedFull.node_id
         corruptedFull.data ("10.0.0.1", 5000)] :=
  c1_no_checksum_verification emptyState 0 (build corruptedFull)
    ("10.0.0.1", 5000) corruptedFull (by decide) (by decide) (by decide)

/-! C3 — port status events. -/

/-- C3, counterexample.  Two consecutive identical online observations for
one address emit two `port_status_changed` events; the claimed
transition-only emission would allow at most one. -/
theorem c3_status_event_counterexample :
    (runPortObservations []
      [(("127.0.0.1", 9000), true), (("127.0.0.1", 9000), true)]).2 =
      [Event.port_status_changed ("127.0.0.1", 9000) true,
       Event.port_status_changed ("127.0.0.1", 9000) true] ∧
    ¬ (runPortObservations []
      [(("127.0.0.1", 9000), true), (("127.0.0.1", 9000), true)]).2.length ≤ 1 := by
  decide

/-- C3, amended: `_update_port_status` emits `port_status_changed` on every
liveness observation, carrying the observed status, regardless of whether
the stored boolean changed — `n` identical observations produce `n`
events. -/
theorem c3_status_event_every_observation (targets : List (Addr × PortStatus))
    (obs : List (Addr × Bool)) :
    (runPortObservations targets obs).2 =
      obs.map (fun ob => Event.port_status_changed ob.1 ob.2) := by
  induction obs generalizing targets with
  | nil => simp [runPortObservations]
  | cons ob rest ih =>
    obtain ⟨addr, online⟩ := ob
    cases online <;> simp [runPortObservations, updatePortStatus, ih]

/-! C6 — length mismatch on assembly. -/

/-- C6, counterexample.  The DATA fragment `c6DataPacket` completes
`c6Reception` (2 fragments present), the assembled 7 bytes mismatch the
announced `total_length` 5000, nothing is delivered and no failure event is
raised — but the PendingReceive entry is NOT discarded: it is still in the
table (with the fragment added) after the handler returns. -/
theorem c6_length_mismatch_counterexample :
    (sortedJoin (dictSet c6Reception.received_packets 2 [4, 5, 6, 7])).length ≠
      c6Reception.total_length ∧
    (recvStep c6State 50 (build c6DataPacket) ("10.0.0.9", 7000)).2 =
      [Event.sent (build (sendAckPacket "node" 6 13 2)) ("10.0.0.9", 7000)] ∧
    dictGet (recvStep c6State 50 (build c6DataPacket)
        ("10.0.0.9", 7000)).1.pending_receptions
      ((("10.0.0.9", 7000), "node", 6, 13)) ≠ none := by decide

/-- C6, amended: when the fragments assembled for a completed
multi-fragment message have a byte length different from the announced
`total_length`, the message is not delivered and no failure event is
emitted, but the PendingReceive entry is NOT discarded: it remains in the
pending-receive table with the final fragment stored. -/
theorem c6_length_mismatch_keeps_entry (st : TransState) (now : Int)
    (p : UDPPacket) (addr : Addr) (rec : Reception)
    (hrec : dictGet st.pending_receptions
      (addr, p.modename, p.node_id, p.sequence_num) = some rec)
    (hhdr : rec.header_received = true)
    (hcount : (dictSet rec.received_packets p.packet_num p.data).length =
      rec.packet_count)
    (hlen : (sortedJoin (dictSet rec.received_packets p.packet_num p.data)).length ≠
      rec.total_length) :
    (handleDataPacket st now p addr).2 =
      [Event.sent
        (build (sendAckPacket p.modename p.node_id p.sequence_num p.packet_num))
        addr] ∧
    dictGet (handleDataPacket st now p addr).1.pending_receptions
      (addr, p.modename, p.node_id, p.sequence_num) =
      some { rec with
        received_packets := dictSet rec.received_packets p.packet_num p.data
        last_received := now } := by
  simp only [handleDataPacket]
  rw [hrec]
  simp [hhdr, hcount, assembleData, hlen, dictGet_dictSet_same]

/-- C6, witness: the amended theorem at the concrete mismatch scenario. -/
theorem c6_length_mismatch_keeps_entry_witness :
    (handleDataPacket c6State 50 c6DataPacket ("10.0.0.9", 7000)).2 =
      [Event.sent
        (build (sendAckPacket c6DataPacket.modename c6DataPacket.node_id
          c6DataPacket.sequence_num c6DataPacket.packet_num)) ("10.0.0.9", 7000)] ∧
    dictGet (handleDataPacket c6State 50 c6DataPacket
        ("10.0.0.9", 7000)).1.pending_receptions
      (("10.0.0.9", 7000), c6DataPacket.modename, c6DataPacket.node_id,
        c6DataPacket.sequence_num) =
      some { c6Reception with
        received_packets := dictSet c6Reception.received_packets
          c6DataPacket.packet_num c6DataPacket.data
        last_received := 50 } :=
  c6_length_mismatch_keeps_entry c6State 50 c6DataPacket ("10.0.0.9", 7000)
    c6Reception (by decide) (by decide) (by decide) (by decide)

/-! C9 — the server peer-binding table. -/

/-- C9, counterexample.  With node 7 bound to `("1.1.1.1", 40000)`, a valid
HEADER packet carrying node 7 arrives from `("2.2.2.2", 50000)`; it is an
inbound valid packet carrying a node id, yet the binding still points at
the old address (only completed deliveries update it). -/
theorem c9_binding_counterexample :
    verify_checksum c9HeaderPacket = true ∧
    parse (build c9HeaderPacket) = some c9HeaderPacket ∧
    c9HeaderPacket.node_id = 7 ∧
    (serverStep [(7, ("1.1.1.1", 40000))] emptyState 0 (build c9HeaderPacket)
      ("2.2.2.2", 50000)).1 = [(7, ("1.1.1.1", 40000))] ∧
    dictGet (serverStep [(7, ("1.1.1.1", 40000))] emptyState 0
      (build c9HeaderPacket) ("2.2.2.2", 50000)).1 7 ≠
      some ("2.2.2.2", 50000) := by decide

theorem dictGet_foldl_upsert (evs : List Event) (binding : List (Nat × Addr))
    (n : Nat) :
    dictGet (evs.foldl upsertBinding binding) n =
      (match lastDeliverySrc n evs with
       | some a => some a
       | none => dictGet binding n) := by
  induction evs generalizing binding with
  | nil => simp [lastDeliverySrc]
  | cons e rest ih =>
    simp only [List.foldl_cons, ih, lastDeliverySrc]
    cases hl : lastDeliverySrc n rest
    · cases e <;> simp [upsertBinding]
      case transmission_complete mn n2 dat src =>
        by_cases h : n2 = n
        · subst h
          simp [dictGet_dictSet_same]
        · simp [h, dictGet_dictSet_ne _ _ _ _ (Ne.symm h)]
    · simp

/-- C9, amended: on the server, `node_id_to_addr` tracks deliveries, not
arbitrary inbound packets — after a receive step, the binding of `n` is the
source address of the last `transmission_complete` (DeliveryComplete) event
of that step for node `n`, and is unchanged when the step delivers nothing
for `n`.  Only a FULL packet or a completed reassembly produces such an
event. -/
theorem c9_binding_tracks_deliveries (binding : List (Nat × Addr))
    (st : TransState) (now : Int) (d : List Nat) (addr : Addr) (n : Nat) :
    dictGet (serverStep binding st now d addr).1 n =
      (match lastDeliverySrc n (recvStep st now d addr).2 with
       | some a => some a
       | none => dictGet binding n) := by
  unfold serverStep
  simp only []
  exact dictGet_foldl_upsert _ _ _

/-! C8 — CONFIRM ACK matching. -/

/-- Iterated receipt of the same ACK packet (state part only). -/
def ackIter (st : TransState) (p : UDPPacket) (addr : Addr) :
    Nat → TransState
  | 0 => st
  | n + 1 => (handleAckPacket (ackIter st p addr n) p addr).1

/-- C8: a CONFIRM ACK whose key matches a PendingSend removes exactly that
entry (the matched key resolves to nothing afterwards, all other keys are
untouched) and emits `ack_received`; an unmatched ACK changes nothing and
emits nothing; replaying the same ACK any positive number of times leaves
the same state as one receipt, and every receipt after the first emits
nothing. -/
theorem c8_ack_matching (st : TransState) (p : UDPPacket) (addr : Addr)
    (hst : p.ack_status = ACK_CONFIRM) :
    (∀ t, dictGet st.pending_transmissions (ackKey p) = some t →
      handleAckPacket st p addr =
        ({ st with pending_transmissions := dictDel st.pending_transmissions (ackKey p) },
         [Event.ack_received p.modename p.node_id p.sequence_num addr]) ∧
      dictGet (dictDel st.pending_transmissions (ackKey p)) (ackKey p) = none ∧
      ∀ k2, k2 ≠ ackKey p →
        dictGet (dictDel st.pending_transmissions (ackKey p)) k2 =
          dictGet st.pending_transmissions k2) ∧
    (dictGet st.pending_transmissions (ackKey p) = none →
      handleAckPacket st p addr = (st, [])) ∧
    (∀ n, 1 ≤ n → ackIter st p addr n = ackIter st p addr 1) ∧
    (∀ n, 1 ≤ n → (handleAckPacket (ackIter st p addr n) p addr).2 = []) := by
  have hconfirm : ∀ t, dictGet st.pending_transmissions (ackKey p) = some t →
      handleAckPacket st p addr =
        ({ st with pending_transmissions := dictDel st.pending_transmissions (ackKey p) },
         [Event.ack_received p.modename p.node_id p.sequence_num addr]) := by
    intro t ht
    simp only [handleAckPacket, ackKey] at ht ⊢
    rw [ht]
    simp [hst, ACK_CONFIRM]
  have hnone : dictGet st.pending_transmissions (ackKey p) = none →
      handleAckPacket st p addr = (st, []) := by
    intro ht
    simp only [handleAckPacket, ackKey] at ht ⊢
    rw [ht]
  have hgone : ∀ st2 : TransState,
      dictGet st2.pending_transmissions (ackKey p) = none →
      (handleAckPacket st2 p addr).1 = st2 ∧
      (handleAckPacket st2 p addr).2 = [] := by
    intro st2 ht
    simp only [handleAckPacket, ackKey] at ht ⊢
    rw [ht]
    exact ⟨rfl, rfl⟩
  have hone : dictGet (ackIter st p addr 1).pending_transmissions (ackKey p) = none := by
    show dictGet (handleAckPacket st p addr).1.pending_transmissions _ = none
    cases ht : dictGet st.pending_transmissions (ackKey p) with
    | none =>
      rw [(hgone st ht).1]
      exact ht
    | some t =>
      rw [hconfirm t ht]
      exact dictGet_dictDel_same _ _
  have hiter : ∀ n, 1 ≤ n → ackIter st p addr n = ackIter st p addr 1 := by
    intro n hn
    induction n with
    | zero => omega
    | succ k ih =>
      rcases Nat.eq_or_lt_of_le hn with h1 | h1
      · rw [← h1]
      · have hk : 1 ≤ k := by omega
        show (handleAckPacket (ackIter st p addr k) p addr).1 = _
        rw [ih hk]
        rw [(hgone _ hone).1]
  refine ⟨?_, hnone, hiter, ?_⟩
  · intro t ht
    exact ⟨hconfirm t ht, dictGet_dictDel_same _ _,
      fun k2 hk2 => dictGet_dictDel_ne _ _ _ hk2⟩
  · intro n hn
    rw [hiter n hn]
    exact (hgone _ hone).2

/-- C8, witness: the concrete CONFIRM ACK for `exFullPacket`'s key removes
the single pending entry of `c8State` and emits `ack_received`. -/
theorem c8_ack_matching_witness :
    handleAckPacket c8State (sendAckPacket "node" 7 9 0) ("10.0.0.1", 5000) =
      ({ c8State with pending_transmissions := dictDel c8State.pending_transmissions (ackKey (sendAckPacket "node" 7 9 0)) },
       [Event.ack_received "node" 7 9 ("10.0.0.1", 5000)]) :=
  (((c8_ack_matching c8State (sendAckPacket "node" 7 9 0) ("10.0.0.1", 5000)
    (by decide)).1 c8Entry (by decide)).1)

/-! C4 — fragmentation. -/

theorem chunks_flatten (l : List Nat) : (chunks l).flatten = l := by
  induction l using chunks.induct with
  | case1 => simp [chunks]
  | case2 l h ih =>
    rw [chunks]
    simp only [if_neg h, List.flatten_cons, ih]
    exact List.take_append_drop _ _

theorem chunks_length (l : List Nat) :
    (chunks l).length = (l.length + MAX_DATA_SIZE - 1) / MAX_DATA_SIZE := by
  induction l using chunks.induct with
  | case1 => simp [chunks, MAX_DATA_SIZE]
  | case2 l h ih =>
    rw [chunks]
    have hl : 0 < l.length := List.length_pos.mpr h
    simp only [MAX_DATA_SIZE, List.length_drop] at ih
    simp only [if_neg h, List.length_cons, ih, List.length_drop, MAX_DATA_SIZE]
    omega

theorem chunks_mem_length (l c : List Nat) (h : c ∈ chunks l) :
    c.length ≤ MAX_DATA_SIZE := by
  induction l using chunks.induct with
  | case1 => simp [chunks] at h
  | case2 l h1 ih =>
    rw [chunks] at h
    simp only [if_neg h1, List.mem_cons] at h
    rcases h with rfl | h
    · simp [MAX_DATA_SIZE]
    · exact ih h

theorem dataFragments_nums (m : String) (nid seq i : Nat) (cs : List (List Nat)) :
    ((List.enumFrom i cs).map (dataFragment m nid seq)).map
        (fun kp => kp.2.packet_num) =
      List.range' (i + 1) cs.length := by
  induction cs generalizing i with
  | nil => rfl
  | cons c rest ih => simp [List.enumFrom, List.range', dataFragment, ih]

theorem dataFragments_data (m : String) (nid seq i : Nat) (cs : List (List Nat)) :
    ((List.enumFrom i cs).map (dataFragment m nid seq)).map
        (fun kp => kp.2.data) = cs := by
  induction cs generalizing i with
  | nil => rfl
  | cons c rest ih => simp [List.enumFrom, dataFragment, ih]

theorem dataFragments_mem (m : String) (nid seq i : Nat) (cs : List (List Nat))
    (kp : SendKey × UDPPacket)
    (h : kp ∈ (List.enumFrom i cs).map (dataFragment m nid seq)) :
    kp.2.packet_type = DATA_PACKET ∧ kp.2.sequence_num = seq ∧
    kp.1 = (m, nid, seq, kp.2.packet_num) ∧ kp.2.data ∈ cs := by
  induction cs generalizing i with
  | nil => simp [List.enumFrom] at h
  | cons c rest ih =>
    simp only [List.enumFrom, List.map_cons, List.mem_cons] at h
    rcases h with rfl | h
    · exact ⟨rfl, rfl, rfl, List.mem_cons_self _ _⟩
    · have h2 := ih _ h
      exact ⟨h2.1, h2.2.1, h2.2.2.1, List.mem_cons_of_mem _ h2.2.2.2⟩

/-- C4: a payload of length `0 < L ≤ 1400` is sent as exactly one FULL
packet with `packet_num 0`, `total_length L`, `packet_count 1` and the
whole payload (so a 1400-byte payload uses FULL); a payload of length
`L > 1400` is sent as one HEADER packet (`packet_num 0`, `total_length L`,
`packet_count ⌈L/1400⌉`) followed by DATA fragments with `packet_num`
`1..⌈L/1400⌉`, each of at most 1400 bytes, whose in-order concatenation is
the original payload. -/
theorem c4_fragmentation (data : List Nat) (modename : String)
    (node_id seq : Nat) :
    (0 < data.length → data.length ≤ MAX_DATA_SIZE →
      ∃ p, sendDataPackets data modename node_id seq =
          [((modename, node_id, seq, 0), p)] ∧
        p.packet_type = FULL_PACKET ∧ p.packet_num = 0 ∧
        p.total_length = data.length ∧ p.packet_count = 1 ∧
        p.sequence_num = seq ∧ p.data = data) ∧
    (MAX_DATA_SIZE < data.length →
      ∃ h ts, sendDataPackets data modename node_id seq =
          ((modename, node_id, seq, 0), h) :: ts ∧
        h.packet_type = HEADER_PACKET ∧ h.packet_num = 0 ∧
        h.sequence_num = seq ∧ h.total_length = data.length ∧
        h.packet_count = (data.length + MAX_DATA_SIZE - 1) / MAX_DATA_SIZE ∧
        ts.map (fun kp => kp.2.packet_num) =
          List.range' 1 ((data.length + MAX_DATA_SIZE - 1) / MAX_DATA_SIZE) ∧
        (∀ kp ∈ ts, kp.2.packet_type = DATA_PACKET ∧
          kp.2.data.length ≤ MAX_DATA_SIZE ∧ kp.2.sequence_num = seq ∧
          kp.1 = (modename, node_id, seq, kp.2.packet_num)) ∧
        (ts.map (fun kp => kp.2.data)).flatten = data) := by
  constructor
  · intro hpos hle
    unfold sendDataPackets
    rw [if_pos hle]
    exact ⟨_, rfl, rfl, rfl, rfl, rfl, rfl, rfl⟩
  · intro hgt
    have hnle : ¬ data.length ≤ MAX_DATA_SIZE := by omega
    unfold sendDataPackets
    rw [if_neg hnle]
    refine ⟨_, _, rfl, rfl, rfl, rfl, rfl, rfl, ?_, ?_, ?_⟩
    · show ((List.enumFrom 0 (chunks data)).map
          (dataFragment modename node_id seq)).map (fun kp => kp.2.packet_num) = _
      rw [dataFragments_nums, chunks_length]
    · intro kp hkp
      have h2 := dataFragments_mem modename node_id seq 0 (chunks data) kp hkp
      exact ⟨h2.1, chunks_mem_length data _ h2.2.2.2, h2.2.1, h2.2.2.1⟩
    · show (((List.enumFrom 0 (chunks data)).map
          (dataFragment modename node_id seq)).map (fun kp => kp.2.data)).flatten = _
      rw [dataFragments_data, chunks_flatten]

/-- C4, witness: the FULL branch at payload `[1, 2, 3]` and the
HEADER+DATA branch at a 1401-byte payload. -/
theorem c4_fragmentation_witness :
    (∃ p, sendDataPackets [1, 2, 3] "node" 7 99 =
        [(("node", 7, 99, 0), p)] ∧
      p.packet_type = FULL_PACKET ∧ p.packet_num = 0 ∧
      p.total_length = ([1, 2, 3] : List Nat).length ∧ p.packet_count = 1 ∧
      p.sequence_num = 99 ∧ p.data = [1, 2, 3]) ∧
    (∃ h ts, sendDataPackets (List.replicate 1401 5) "node" 7 99 =
        (("node", 7, 99, 0), h) :: ts ∧
      h.packet_type = HEADER_PACKET ∧ h.packet_num = 0 ∧
      h.sequence_num = 99 ∧ h.total_length = (List.replicate 1401 (5 : Nat)).length ∧
      h.packet_count =
        ((List.replicate 1401 (5 : Nat)).length + MAX_DATA_SIZE - 1) / MAX_DATA_SIZE ∧
      ts.map (fun kp => kp.2.packet_num) =
        List.range' 1
          (((List.replicate 1401 (5 : Nat)).length + MAX_DATA_SIZE - 1) / MAX_DATA_SIZE) ∧
      (∀ kp ∈ ts, kp.2.packet_type = DATA_PACKET ∧
        kp.2.data.length ≤ MAX_DATA_SIZE ∧ kp.2.sequence_num = 99 ∧
        kp.1 = ("node", 7, 99, kp.2.packet_num)) ∧
      (ts.map (fun kp => kp.2.data)).flatten = List.replicate 1401 5) :=
  ⟨(c4_fragmentation [1, 2, 3] "node" 7 99).1 (by decide) (by decide),
   (c4_fragmentation (List.replicate 1401 5) "node" 7 99).2
     (by rw [List.length_replicate]; decide)⟩

/-! C7 -- reclamation of pending receptions. -/

theorem handleAckPacket_receptions (st : TransState) (p : UDPPacket) (addr : Addr) :
    (handleAckPacket st p addr).1.pending_receptions = st.pending_receptions := by
  simp only [handleAckPacket]
  cases dictGet st.pending_transmissions (p.modename, p.node_id, p.sequence_num, p.packet_num) with
  | none => rfl
  | some t => split_ifs <;> rfl

theorem assembleData_removed (receptions : List (RecvKey × Reception))
    (rk : RecvKey) (rec : Reception) (key : RecvKey)
    (hin : (dictGet receptions key).isSome = true)
    (hout : dictGet (assembleData receptions rk rec).1 key = none) :
    key = rk ∧ (assembleData receptions rk rec).2 =
      [Event.transmission_complete rk.2.1 rk.2.2.1
        (sortedJoin rec.received_packets) rec.source_addr] := by
  simp only [assembleData] at hout ⊢
  split_ifs at hout ⊢ with hl
  · rw [hout] at hin
    simp at hin
  · by_cases hk : key = rk
    · exact ⟨hk, rfl⟩
    · rw [dictGet_dictDel_ne _ _ _ hk] at hout
      rw [hout] at hin
      simp at hin

theorem handleHeaderPacket_removed (st : TransState) (now : Int)
    (p : UDPPacket) (addr : Addr) (key : RecvKey)
    (hin : (dictGet st.pending_receptions key).isSome = true)
    (hout : dictGet (handleHeaderPacket st now p addr).1.pending_receptions key = none) :
    ∃ bytes src, Event.transmission_complete key.2.1 key.2.2.1 bytes src ∈
      (handleHeaderPacket st now p addr).2 := by
  simp only [handleHeaderPacket] at hout ⊢
  cases hdg : dictGet st.pending_receptions (addr, p.modename, p.node_id, p.sequence_num) with
  | none =>
    simp only [hdg] at hout
    by_cases hk : key = (addr, p.modename, p.node_id, p.sequence_num)
    · rw [hk, dictGet_dictSet_same] at hout
      simp at hout
    · rw [dictGet_dictSet_ne _ _ _ _ hk] at hout
      rw [hout] at hin
      simp at hin
  | some reception =>
    simp only [hdg] at hout ⊢
    split_ifs at hout ⊢ with hc
    · have hin2 : (dictGet (dictSet st.pending_receptions
          (addr, p.modename, p.node_id, p.sequence_num)
          { reception with
            total_length := p.total_length
            packet_count := p.packet_count
            header_received := true
            last_received := now }) key).isSome = true := by
        by_cases hk : key = (addr, p.modename, p.node_id, p.sequence_num)
        · rw [hk, dictGet_dictSet_same]
          rfl
        · rw [dictGet_dictSet_ne _ _ _ _ hk]
          exact hin
      have h2 := assembleData_removed _ _ _ _ hin2 hout
      rw [h2.1]
      rw [h2.2]
      exact ⟨_, _, List.mem_cons_of_mem _ (List.mem_singleton_self _)⟩
    · by_cases hk : key = (addr, p.modename, p.node_id, p.sequence_num)
      · rw [hk, dictGet_dictSet_same] at hout
        simp at hout
      · rw [dictGet_dictSet_ne _ _ _ _ hk] at hout
        rw [hout] at hin
        simp at hin

theorem handleDataPacket_removed (st : TransState) (now : Int)
    (p : UDPPacket) (addr : Addr) (key : RecvKey)
    (hin : (dictGet st.pending_receptions key).isSome = true)
    (hout : dictGet (handleDataPacket st now p addr).1.pending_receptions key = none) :
    ∃ bytes src, Event.transmission_complete key.2.1 key.2.2.1 bytes src ∈
      (handleDataPacket st now p addr).2 := by
  simp only [handleDataPacket] at hout ⊢
  cases hdg : dictGet st.pending_receptions (addr, p.modename, p.node_id, p.sequence_num) with
  | none =>
    simp only [hdg] at hout
    by_cases hk : key = (addr, p.modename, p.node_id, p.sequence_num)
    · rw [hk, dictGet_dictSet_same] at hout
      simp at hout
    · rw [dictGet_dictSet_ne _ _ _ _ hk] at hout
      rw [hout] at hin
      simp at hin
  | some reception =>
    simp only [hdg] at hout ⊢
    split_ifs at hout ⊢ with hc
    · have hin2 : (dictGet (dictSet st.pending_receptions
          (addr, p.modename, p.node_id, p.sequence_num)
          { reception with
            received_packets := dictSet reception.received_packets p.packet_num p.data
            last_received := now }) key).isSome = true := by
        by_cases hk : key = (addr, p.modename, p.node_id, p.sequence_num)
        · rw [hk, dictGet_dictSet_same]
          rfl
        · rw [dictGet_dictSet_ne _ _ _ _ hk]
          exact hin
      have h2 := assembleData_removed _ _ _ _ hin2 hout
      rw [h2.1]
      rw [h2.2]
      exact ⟨_, _, List.mem_cons_of_mem _ (List.mem_singleton_self _)⟩
    · by_cases hk : key = (addr, p.modename, p.node_id, p.sequence_num)
      · rw [hk, dictGet_dictSet_same] at hout
        simp at hout
      · rw [dictGet_dictSet_ne _ _ _ _ hk] at hout
        rw [hout] at hin
        simp at hin

/-- C7, counterexample.  A duplicate DATA fragment creates a ghost
PendingReceive at time 0; at time 100 — far beyond the claimed 30-second
TTL — both the receive loop (processing an unrelated datagram) and the
retransmission pass run, and the ghost is still in the table: no sweeper
exists. -/
theorem c7_no_sweeper_counterexample :
    (recvStep emptyState 0 (build dupDataPacket) ("9.9.9.9", 1)).1.pending_receptions =
      [(c7GhostKey, c7Ghost)] ∧
    dictGet (checkRetransmissions
        ((recvStep ((recvStep emptyState 0 (build dupDataPacket)
          ("9.9.9.9", 1)).1) 100 [] ("8.8.8.8", 2)).1) 100 100).1.pending_receptions
      c7GhostKey = some c7Ghost ∧
    (100 : Int) - c7Ghost.last_received > 30 := by decide

/-- C7, amended: no stale-receive sweeper exists.  The retransmission pass
never touches the pending-receive table, and the receive loop removes a
PendingReceive entry only when it delivers that entry's message
(`transmission_complete`); an entry that is never completed by assembly is
therefore never reclaimed, no matter how old its `last_received` time
grows. -/
theorem c7_receptions_never_reclaimed :
    (∀ (st : TransState) (now now2 : Int),
      (checkRetransmissions st now now2).1.pending_receptions =
        st.pending_receptions) ∧
    (∀ (st : TransState) (now : Int) (d : List Nat) (addr : Addr)
        (key : RecvKey),
      (dictGet st.pending_receptions key).isSome = true →
      dictGet (recvStep st now d addr).1.pending_receptions key = none →
      ∃ bytes src, Event.transmission_complete key.2.1 key.2.2.1 bytes src ∈
        (recvStep st now d addr).2) := by
  constructor
  · intro st now now2
    rfl
  · intro st now d addr key hin hout
    unfold recvStep at hout ⊢
    cases hp : parse d with
    | none =>
      simp only [hp] at hout
      rw [hout] at hin
      simp at hin
    | some p =>
      simp only [hp] at hout ⊢
      split_ifs at hout ⊢ with h1 h2 h3 h4 h5
      · rw [handleAckPacket_receptions] at hout
        rw [hout] at hin
        simp at hin
      · exact handleHeaderPacket_removed st now p addr key hin hout
      · exact handleDataPacket_removed st now p addr key hin hout
      · simp only [handleFullPacket] at hout
        rw [hout] at hin
        simp at hin
      · simp only [handleCheckPortPacket] at hout
        rw [hout] at hin
        simp at hin
      · simp only at hout
        rw [hout] at hin
        simp at hin

/-- C7, witness: a removal that does happen (a DATA fragment completing
`c7DoneReception`) is accompanied by a delivery event, as the amended
theorem demands. -/
theorem c7_receptions_never_reclaimed_witness :
    ∃ bytes src, Event.transmission_complete c7GhostKey.2.1 c7GhostKey.2.2.1
        bytes src ∈
      (recvStep c7DoneState 5 (build c7FinalData) ("9.9.9.9", 1)).2 :=
  c7_receptions_never_reclaimed.2 c7DoneState 5 (build c7FinalData)
    ("9.9.9.9", 1) c7GhostKey (by decide) (by decide)

/-! C5 -- the retransmission bound. -/

theorem c5_step_first (key : SendKey) (packet : UDPPacket) (data : List Nat)
    (dest : Addr) (rcp : List (RecvKey × Reception))
    (tg : List (Addr × PortStatus)) (now now2 : Int) :
    checkRetransmissions ⟨[(key, c5Entry packet data dest 0 0 false)], rcp, tg⟩
        now now2 =
      (⟨[(key, c5Entry packet data dest 1 now2 true)], rcp, tg⟩,
       [Event.sent (build packet) dest]) := by
  simp [checkRetransmissions, retransScan, retransSend, c5Entry, dictGet, dictSet]

theorem c5_step_quiet (key : SendKey) (packet : UDPPacket) (data : List Nat)
    (dest : Addr) (rcp : List (RecvKey × Reception))
    (tg : List (Addr × PortStatus)) (now now2 : Int) (r : Nat) (ls : Int)
    (h : ¬ 1 < now - ls) :
    checkRetransmissions ⟨[(key, c5Entry packet data dest r ls true)], rcp, tg⟩
        now now2 =
      (⟨[(key, c5Entry packet data dest r ls true)], rcp, tg⟩, []) := by
  simp [checkRetransmissions, retransScan, retransSend, c5Entry, h]

theorem c5_step_retry (key : SendKey) (packet : UDPPacket) (data : List Nat)
    (dest : Addr) (rcp : List (RecvKey × Reception))
    (tg : List (Addr × PortStatus)) (now now2 : Int) (r : Nat) (ls : Int)
    (h : 1 < now - ls) (hr : r < 3) :
    checkRetransmissions ⟨[(key, c5Entry packet data dest r ls true)], rcp, tg⟩
        now now2 =
      (⟨[(key, c5Entry packet data dest (r + 1) now2 true)], rcp, tg⟩,
       [Event.sent (build packet) dest]) := by
  simp [checkRetransmissions, retransScan, retransSend, c5Entry, h, hr,
    dictGet, dictSet]

theorem c5_step_fail (key : SendKey) (packet : UDPPacket) (data : List Nat)
    (dest : Addr) (rcp : List (RecvKey × Reception))
    (tg : List (Addr × PortStatus)) (now now2 : Int) (r : Nat) (ls : Int)
    (h : 1 < now - ls) (hr : ¬ r < 3) :
    checkRetransmissions ⟨[(key, c5Entry packet data dest r ls true)], rcp, tg⟩
        now now2 =
      (⟨[], rcp,
        (if packet.packet_type = CHECK_PORT_PACKET then
          updatePortStatus tg dest false else (tg, [])).1⟩,
       (if packet.packet_type = CHECK_PORT_PACKET then
          updatePortStatus tg dest false else (tg, [])).2 ++
        [Event.transmission_failed key.1 key.2.1 "Max retries exceeded" dest]) := by
  simp [checkRetransmissions, retransScan, retransSend, c5Entry, h, hr]

theorem c5_run_empty (ticks : List (Int × Int)) (rcp : List (RecvKey × Reception))
    (tg : List (Addr × PortStatus)) :
    runRetransTicks ⟨[], rcp, tg⟩ ticks = (⟨[], rcp, tg⟩, []) := by
  induction ticks with
  | nil => rfl
  | cons tick ticks ih =>
    simp [runRetransTicks, checkRetransmissions, retransScan, retransSend, ih]

theorem c5_fail_events_counts (key : SendKey) (packet : UDPPacket)
    (dest : Addr) (tg : List (Addr × PortStatus)) :
    countSends ((if packet.packet_type = CHECK_PORT_PACKET then
        updatePortStatus tg dest false else (tg, [])).2 ++
      [Event.transmission_failed key.1 key.2.1 "Max retries exceeded" dest]) = 0 ∧
    countFailures ((if packet.packet_type = CHECK_PORT_PACKET then
        updatePortStatus tg dest false else (tg, [])).2 ++
      [Event.transmission_failed key.1 key.2.1 "Max retries exceeded" dest]) = 1 ∧
    ∀ e ∈ ((if packet.packet_type = CHECK_PORT_PACKET then
        updatePortStatus tg dest false else (tg, [])).2 ++
      [Event.transmission_failed key.1 key.2.1 "Max retries exceeded" dest]),
      isFailureEvent e = true →
      e = Event.transmission_failed key.1 key.2.1 "Max retries exceeded" dest := by
  split_ifs <;>
    simp_all [countSends, countFailures, updatePortStatus, isFailureEvent,
      isSentEvent]

theorem c5_run_from (key : SendKey) (packet : UDPPacket) (data : List Nat)
    (dest : Addr) (ticks : List (Int × Int)) :
    ∀ (rcp : List (RecvKey × Reception)) (tg : List (Addr × PortStatus))
      (r : Nat) (ls : Int), 1 ≤ r → r ≤ 3 →
    countSends (runRetransTicks
      ⟨[(key, c5Entry packet data dest r ls true)], rcp, tg⟩ ticks).2 ≤ 3 - r ∧
    countFailures (runRetransTicks
      ⟨[(key, c5Entry packet data dest r ls true)], rcp, tg⟩ ticks).2 ≤ 1 ∧
    (dictGet (runRetransTicks
        ⟨[(key, c5Entry packet data dest r ls true)], rcp, tg⟩
        ticks).1.pending_transmissions key = none ↔
      countFailures (runRetransTicks
        ⟨[(key, c5Entry packet data dest r ls true)], rcp, tg⟩ ticks).2 = 1) ∧
    (dictGet (runRetransTicks
        ⟨[(key, c5Entry packet data dest r ls true)], rcp, tg⟩
        ticks).1.pending_transmissions key = none →
      countSends (runRetransTicks
        ⟨[(key, c5Entry packet data dest r ls true)], rcp, tg⟩ ticks).2 = 3 - r) ∧
    (∀ e ∈ (runRetransTicks
        ⟨[(key, c5Entry packet data dest r ls true)], rcp, tg⟩ ticks).2,
      isFailureEvent e = true →
      e = Event.transmission_failed key.1 key.2.1 "Max retries exceeded" dest) := by
  induction ticks with
  | nil =>
    intro rcp tg r ls h1 h3
    refine ⟨by simp [runRetransTicks, countSends], by simp [runRetransTicks, countFailures], ?_, ?_, ?_⟩
    · simp [runRetransTicks, countFailures, dictGet]
    · simp [runRetransTicks, dictGet]
    · simp [runRetransTicks]
  | cons tick ticks ih =>
    intro rcp tg r ls h1 h3
    obtain ⟨now, now2⟩ := tick
    simp only [runRetransTicks]
    by_cases ht : 1 < now - ls
    · by_cases hr : r < 3
      · rw [c5_step_retry key packet data dest rcp tg now now2 r ls ht hr]
        simp only [List.singleton_append]
        have h2 := ih rcp tg (r + 1) now2 (by omega) (by omega)
        obtain ⟨hs, hf, hiff, hexact, hev⟩ := h2
        refine ⟨?_, ?_, ?_, ?_, ?_⟩
        · simp only [countSends, isSentEvent, List.filter_cons_of_pos,
            List.length_cons]
          simp only [countSends] at hs
          omega
        · simpa [countFailures, isFailureEvent, List.filter_cons_of_neg]
            using hf
        · simpa [countFailures, isFailureEvent, List.filter_cons_of_neg]
            using hiff
        · intro hnone
          have h4 := hexact hnone
          simp only [countSends, isSentEvent, List.filter_cons_of_pos,
            List.length_cons]
          simp only [countSends] at h4
          omega
        · intro e he hfe
          rcases List.mem_cons.mp he with rfl | he2
          · simp [isFailureEvent] at hfe
          · exact hev e he2 hfe
      · rw [c5_step_fail key packet data dest rcp tg now now2 r ls ht hr]
        simp only []
        rw [c5_run_empty]
        simp only [List.append_nil]
        have hc := c5_fail_events_counts key packet dest tg
        refine ⟨by omega, by omega, ?_, ?_, hc.2.2⟩
        · simp [dictGet, hc.2.1]
        · intro _
          have : r = 3 := by omega
          rw [hc.1, this]
    · rw [c5_step_quiet key packet data dest rcp tg now now2 r ls ht]
      simp only [List.nil_append]
      exact ih rcp tg r ls h1 h3

/-- C5: a PendingSend that never receives an ACK is transmitted at most
`3 + 1` times across any sequence of retransmission passes (in fact at most
3: the code counts the first send as a retry); on retry exhaustion exactly
one `transmission_failed` event is emitted — carrying the reason
"Max retries exceeded" and the destination — and the entry is removed from
the pending table (removal and the single failure event coincide). -/
theorem c5_retry_bound (key : SendKey) (packet : UDPPacket) (data : List Nat)
    (dest : Addr) (rcp : List (RecvKey × Reception))
    (tg : List (Addr × PortStatus)) (ticks : List (Int × Int)) :
    countSends (runRetransTicks (c5Start key packet data dest rcp tg)
      ticks).2 ≤ 3 + 1 ∧
    countFailures (runRetransTicks (c5Start key packet data dest rcp tg)
      ticks).2 ≤ 1 ∧
    (dictGet (runRetransTicks (c5Start key packet data dest rcp tg)
        ticks).1.pending_transmissions key = none ↔
      countFailures (runRetransTicks (c5Start key packet data dest rcp tg)
        ticks).2 = 1) ∧
    (dictGet (runRetransTicks (c5Start key packet data dest rcp tg)
        ticks).1.pending_transmissions key = none →
      countSends (runRetransTicks (c5Start key packet data dest rcp tg)
        ticks).2 = 3) ∧
    (∀ e ∈ (runRetransTicks (c5Start key packet data dest rcp tg) ticks).2,
      isFailureEvent e = true →
      e = Event.transmission_failed key.1 key.2.1 "Max retries exceeded" dest) := by
  have hq : c5Start key packet data dest rcp tg =
      ⟨[(key, c5Entry packet data dest 0 0 false)], rcp, tg⟩ := rfl
  rw [hq]
  cases ticks with
  | nil =>
    refine ⟨by simp [runRetransTicks, countSends],
      by simp [runRetransTicks, countFailures], ?_, ?_, ?_⟩
    · simp [runRetransTicks, countFailures, dictGet]
    · simp [runRetransTicks, dictGet]
    · simp [runRetransTicks]
  | cons tick ticks =>
    obtain ⟨now, now2⟩ := tick
    simp only [runRetransTicks]
    rw [c5_step_first key packet data dest rcp tg now now2]
    simp only [List.singleton_append]
    have h2 := c5_run_from key packet data dest ticks rcp tg 1 now2
      (by omega) (by omega)
    obtain ⟨hs, hf, hiff, hexact, hev⟩ := h2
    refine ⟨?_, ?_, ?_, ?_, ?_⟩
    · simp only [countSends, isSentEvent, List.filter_cons_of_pos,
        List.length_cons]
      simp only [countSends] at hs
      omega
    · simpa [countFailures, isFailureEvent, List.filter_cons_of_neg] using hf
    · simpa [countFailures, isFailureEvent, List.filter_cons_of_neg] using hiff
    · intro hnone
      have h4 := hexact hnone
      simp only [countSends, isSentEvent, List.filter_cons_of_pos,
        List.length_cons]
      simp only [countSends] at h4
      omega
    · intro e he hfe
      rcases List.mem_cons.mp he with rfl | he2
      · simp [isFailureEvent] at hfe
      · exact hev e he2 hfe

/-- C5, witness: a concrete 4-tick run with 1-second timeouts sends the
FULL packet 3 times, then fails once with the exact reason and removes the
entry. -/
theorem c5_retry_bound_witness :
    countSends (runRetransTicks
      (c5Start ("node", 7, 9, 0) exFullPacket [10, 20] ("10.0.0.1", 5000) [] [])
      [(0, 0), (2, 2), (4, 4), (6, 6)]).2 = 3 ∧
    (Event.transmission_failed "node" 7 "Max retries exceeded"
        ("10.0.0.1", 5000) ∈
      (runRetransTicks
        (c5Start ("node", 7, 9, 0) exFullPacket [10, 20] ("10.0.0.1", 5000) [] [])
        [(0, 0), (2, 2), (4, 4), (6, 6)]).2 →
      Event.transmission_failed "node" 7 "Max retries exceeded"
        ("10.0.0.1", 5000) =
      Event.transmission_failed ("node", 7, 9, 0).1 ("node", 7, 9, 0).2.1
        "Max retries exceeded" ("10.0.0.1", 5000)) :=
  ⟨(c5_retry_bound ("node", 7, 9, 0) exFullPacket [10, 20] ("10.0.0.1", 5000)
      [] [] [(0, 0), (2, 2), (4, 4), (6, 6)]).2.2.2.1 (by decide),
   fun hmem => (c5_retry_bound ("node", 7, 9, 0) exFullPacket [10, 20]
      ("10.0.0.1", 5000) [] [] [(0, 0), (2, 2), (4, 4), (6, 6)]).2.2.2.2 _
      hmem (by decide)⟩
